import Mathlib

/-!
Verification of the tubely video-upload handler (Go repository:
`handler_upload_video.go`).

The repository is one HTTP handler, `handlerUploadVideo`, plus one helper,
`getVideoAspectRatio`.  We build a shallow embedding:

* The classification loop of `getVideoAspectRatio` (iterating over the
  streams reported by ffprobe) is embedded as `classifyStreams` over a list
  of `FFStream` records.  Go's `float64` division and comparisons against
  the literals 1.6, 1.85, 1.28, 1.36, 0.53, 0.62, 0.73, 0.82 are modelled by
  exact rational arithmetic; for the integer dimensions appearing in the
  claims the two agree (none of the claim inputs sits at a band boundary).
* `hex.EncodeToString` (Go standard library) is embedded as
  `hexEncodeToString` over byte values given as naturals.
* `mime.ParseMediaType` (Go standard library, not part of this repository)
  is embedded as `parseMediaType`, following its behaviour on the inputs
  relevant here: the media type is the `;`-cut head, space-trimmed and
  ASCII-lowercased, checked to be `token "/" token`; parameters are checked
  as `attribute=value` chunks with token or plain quoted-string values
  (the stdlib's escapes/continuations are out of scope for the claims).
* The handler itself is embedded as a function from an `UploadInput`
  oracle — one field per fallible external call (UUID parse, bearer token,
  JWT validation, DB lookup, form parse, file part, temp file, copy,
  ffprobe, seek, random bytes, S3 PutObject, DB UpdateVideo) — to an
  `UploadResult` carrying the HTTP status, the response message, the
  returned video URL, and a trace of externally visible effects (temp-file
  creation/close/removal, successful S3 put, DB update call).
-/

/-- One stream record of the ffprobe JSON output, as decoded by
`getVideoAspectRatio`: `codec_type`, `width`, `height`, and `tags.rotate`
(the empty string when the tag is absent). -/
structure FFStream where
  codecType : String
  width : Int
  height : Int
  rotate : String
deriving DecidableEq, Repr

/-- The four tolerance bands of `getVideoAspectRatio`, in source order:
`(1.6, 1.85) ↦ "16:9"`, `(1.28, 1.36) ↦ "4:3"`, `(0.53, 0.62) ↦ "9:16"`,
`(0.73, 0.82) ↦ "3:4"`; `none` when the ratio matches no band. -/
def bandLabel (ar : ℚ) : Option String :=
  if 1.6 < ar ∧ ar < 1.85 then some "16:9"
  else if 1.28 < ar ∧ ar < 1.36 then some "4:3"
  else if 0.53 < ar ∧ ar < 0.62 then some "9:16"
  else if 0.73 < ar ∧ ar < 0.82 then some "3:4"
  else none

/-- The stream loop of `getVideoAspectRatio`: skip streams whose codec type
is not "video" or whose width/height is not positive; swap dimensions when
`tags.rotate` is "90" or "270" (the source writes `w, h = h, w`, rendered
here as two conditionals); return the first band label found (the source's
four early `return`s), else iterate on (`Option.getD` with the recursive
call as default renders exactly that); "other" when the loop exhausts the
list. -/
def classifyStreams : List FFStream → String
  | [] => "other"
  | s :: rest =>
    if s.codecType ≠ "video" then classifyStreams rest
    else if s.width ≤ 0 ∨ s.height ≤ 0 then classifyStreams rest
    else
      let w := if s.rotate = "90" ∨ s.rotate = "270" then s.height else s.width
      let h := if s.rotate = "90" ∨ s.rotate = "270" then s.width else s.height
      let ar : ℚ := (w : ℚ) / (h : ℚ)
      (bandLabel ar).getD (classifyStreams rest)

/-- `getVideoAspectRatio`: the ffprobe invocation and JSON decode are
modelled by an `Option (List FFStream)` input (`none` = the external
process failed to run or its output failed to parse, which the Go function
propagates as an error); on success the stream loop classifies. -/
def getVideoAspectRatio (probeOutput : Option (List FFStream)) : Option String :=
  probeOutput.map classifyStreams

/-- Go's `hextable` constant, as the character list of "0123456789abcdef". -/
def hextable : List Char := "0123456789abcdef".data

/-- One hex digit: `hextable[n]` (the index is a nibble of a byte in every
use, so it is `< 16`; the default is never reached). -/
def hexDigit (n : Nat) : Char := hextable.getD n '0'

/-- `hex.EncodeToString`, list level: byte `b` encodes to
`hextable[b >>> 4]` then `hextable[b &&& 0x0f]`. -/
def hexEncodeList : List Nat → List Char
  | [] => []
  | b :: bs => hexDigit (b / 16) :: hexDigit (b % 16) :: hexEncodeList bs

/-- Go's `hex.EncodeToString` on a byte slice given as naturals. -/
def hexEncodeToString (bs : List Nat) : String :=
  String.mk (hexEncodeList bs)

/-- ASCII space characters trimmed by `strings.TrimSpace` (the inputs here
are ASCII header values). -/
def isMimeSpace (c : Char) : Bool :=
  c = ' ' || c = '\t' || c = '\n' || c = '\r'

/-- Trim spaces from both ends of a character list. -/
def trimChars (l : List Char) : List Char :=
  ((l.dropWhile isMimeSpace).reverse.dropWhile isMimeSpace).reverse

/-- ASCII lowercasing, as `strings.ToLower` acts on ASCII header values. -/
def toLowerChars (l : List Char) : List Char :=
  l.map fun c => if 'A' ≤ c ∧ c ≤ 'Z' then Char.ofNat (c.toNat + 32) else c

/-- Go `mime.isTSpecial`: one of `()<>@,;:\"/[]?=`. -/
def isTSpecialChar (c : Char) : Bool :=
  c = '(' || c = ')' || c = '<' || c = '>' || c = '@' || c = ',' || c = ';' ||
  c = ':' || c = '\\' || c = '"' || c = '/' || c = '[' || c = ']' ||
  c = '?' || c = '='

/-- Go `mime.isTokenChar`: printable ASCII above space, not a tspecial. -/
def isTokenChar (c : Char) : Bool :=
  decide (0x20 < c.toNat) && decide (c.toNat < 0x7f) && !(isTSpecialChar c)

/-- Split a character list at every occurrence of `sep` (like
`strings.Cut` iterated; never returns an empty list of chunks). -/
def splitOnChar (sep : Char) : List Char → List (List Char)
  | [] => [[]]
  | c :: cs =>
    let r := splitOnChar sep cs
    if c = sep then [] :: r
    else
      match r with
      | [] => [[c]]
      | h :: t => (c :: h) :: t

/-- Go `mime.checkMediaTypeDisposition`: the trimmed, lowercased media type
must be a token, optionally followed by "/" and a second token, with
nothing after. -/
def checkMediaTypeChars (l : List Char) : Bool :=
  let typ := l.takeWhile isTokenChar
  let rest := l.dropWhile isTokenChar
  if typ.isEmpty then false
  else
    match rest with
    | [] => true
    | '/' :: r2 =>
      let sub := r2.takeWhile isTokenChar
      let r3 := r2.dropWhile isTokenChar
      !sub.isEmpty && r3.isEmpty
    | _ => false

/-- A plain quoted-string parameter value: `"`, then characters that are
neither `"` nor `\`, then a closing `"`. -/
def isQuotedValue (l : List Char) : Bool :=
  match l with
  | '"' :: rest =>
    !rest.isEmpty && rest.dropLast.all (fun c => c ≠ '"' && c ≠ '\\') &&
      rest.getLast? = some '"'
  | _ => false

/-- One `;`-separated parameter chunk: empty chunks are tolerated (Go
ignores a trailing `;`), otherwise the trimmed chunk must be
`attribute=value` with a token attribute and a token or quoted value. -/
def paramChunkOk (l : List Char) : Bool :=
  let t := trimChars l
  if t.isEmpty then true
  else
    let key := t.takeWhile isTokenChar
    let rest := t.dropWhile isTokenChar
    if key.isEmpty then false
    else
      match rest with
      | '=' :: v => (!v.isEmpty && v.all isTokenChar) || isQuotedValue v
      | _ => false

/-- Go's `mime.ParseMediaType` (standard library, external to this
repository), restricted as described in the header: cut at the first `;`,
trim and lowercase the head, validate it as `token "/" token` (or a bare
token), validate each remaining chunk as a parameter; `none` models a
non-nil error, in which case the handler rejects the request. -/
def parseMediaType (v : String) : Option String :=
  match splitOnChar ';' v.data with
  | [] => none
  | base :: params =>
    let mediatype := trimChars (toLowerChars base)
    if checkMediaTypeChars mediatype && params.all paramChunkOk then
      some (String.mk mediatype)
    else none

/-- The video metadata record, as far as the handler touches it: the owner
id (`UserID`, compared against the authenticated user) and the nullable
remote URL (`VideoURL`, overwritten on success). -/
structure VideoRecord where
  userID : String
  videoURL : Option String
deriving DecidableEq, Repr

/-- Externally visible effects of one handler execution, in order:
temp-file lifecycle, a durably accepted S3 `PutObject` (recorded only when
the store accepts), and a `db.UpdateVideo` call (recorded when the call is
issued, whether or not it then fails). -/
inductive Effect where
  | createTemp : Effect
  | closeTemp : Effect
  | removeTemp : Effect
  | putObject : String → Effect
  | updateVideo : String → Effect
deriving DecidableEq, Repr

/-- Oracle input for one `handlerUploadVideo` execution: configuration
(`s3Bucket`, `s3Region` from `apiConfig`) plus one field per fallible
external interaction, in the order the handler performs them.  `none` /
`false` means that call returns an error.  `filePart` is the `Content-Type`
header of the multipart part named "video" (the handler reads no other
content type); `outerContentType` is the enclosing request's own
`Content-Type` header, present in the model precisely to show the handler
never consults it. -/
structure UploadInput where
  videoIDValid : Bool
  bearerToken : Option String
  jwtUserID : Option String
  dbVideo : Option VideoRecord
  parseFormOk : Bool
  filePart : Option String
  outerContentType : String
  createTempOk : Bool
  copyOk : Bool
  probeOutput : Option (List FFStream)
  seekOk : Bool
  randBytes : Option (List Nat)
  putObjectOk : Bool
  updateVideoOk : Bool
  s3Bucket : String
  s3Region : String
deriving Repr

/-- Observable outcome of one handler execution: HTTP status,
`respondWithError`/success message, the `video_url` of the success body
(`none` on every error), and the effect trace. -/
structure UploadResult where
  status : Nat
  message : String
  videoURL : Option String
  trace : List Effect
deriving DecidableEq, Repr

/-- The aspect-ratio → key-class switch of the handler (the source names
the resulting variable aspectRatioPrefix): "16:9" and "4:3" map to
"landscape", "9:16" and "3:4" to "portrait", every other label to
"other". -/
def classificationOfLabel (label : String) : String :=
  if label = "16:9" ∨ label = "4:3" then "landscape"
  else if label = "9:16" ∨ label = "3:4" then "portrait"
  else "other"

/-- `handlerUploadVideo`, step by step from the source: UUID parse (400),
bearer token (401), JWT validation (401), `GetVideo` (404), ownership
(403), `ParseMultipartForm` (500), `FormFile` (400), `ParseMediaType`
(400), exact "video/mp4" check (400), `CreateTemp` (500), `io.Copy` (500),
`getVideoAspectRatio` (500), the aspect-ratio → key-class switch (the
source names the variable aspectRatioPrefix; here `classification`),
`Seek` (500), `crand.Read` (500), `PutObject` (500), `UpdateVideo` (500),
then the 200 response.  The deferred temp-file cleanup registered right
after `CreateTemp` succeeds appends close + remove to every later exit. -/
def handlerUploadVideo (i : UploadInput) : UploadResult :=
  if i.videoIDValid = false then ⟨400, "Invalid ID", none, []⟩
  else match i.bearerToken with
  | none => ⟨401, "Couldn't find JWT", none, []⟩
  | some _token =>
    match i.jwtUserID with
    | none => ⟨401, "Couldn't validate JWT", none, []⟩
    | some userID =>
      match i.dbVideo with
      | none => ⟨404, "Video not found", none, []⟩
      | some video =>
        if video.userID ≠ userID then ⟨403, "You do not own this video", none, []⟩
        else if i.parseFormOk = false then ⟨500, "Failed to parse multipart form", none, []⟩
        else match i.filePart with
        | none => ⟨400, "Failed to retrieve video file", none, []⟩
        | some partContentType =>
          match parseMediaType partContentType with
          | none => ⟨400, "Invalid Content-Type", none, []⟩
          | some mediaType =>
            if mediaType ≠ "video/mp4" then ⟨400, "Invalid file type", none, []⟩
            else if i.createTempOk = false then ⟨500, "Failed to create temp file", none, []⟩
            else if i.copyOk = false then
              ⟨500, "Failed to save uploaded file", none,
                [.createTemp, .closeTemp, .removeTemp]⟩
            else match getVideoAspectRatio i.probeOutput with
            | none =>
              ⟨500, "Failed to get video aspect ratio", none,
                [.createTemp, .closeTemp, .removeTemp]⟩
            | some aspectRatio =>
              let classification := classificationOfLabel aspectRatio
              if i.seekOk = false then
                ⟨500, "Failed to seek temp file", none,
                  [.createTemp, .closeTemp, .removeTemp]⟩
              else match i.randBytes with
              | none =>
                ⟨500, "Error generating random filename", none,
                  [.createTemp, .closeTemp, .removeTemp]⟩
              | some randomBytes =>
                let s3Key :=
                  "videos/" ++ classification ++ "/" ++ hexEncodeToString randomBytes ++ ".mp4"
                if i.putObjectOk = false then
                  ⟨500, "Failed to upload file to S3", none,
                    [.createTemp, .closeTemp, .removeTemp]⟩
                else
                  let videoURL :=
                    "https://" ++ i.s3Bucket ++ ".s3." ++ i.s3Region ++ ".amazonaws.com/" ++ s3Key
                  if i.updateVideoOk = false then
                    ⟨500, "Failed to update video URL in database", none,
                      [.createTemp, .putObject s3Key, .updateVideo videoURL,
                        .closeTemp, .removeTemp]⟩
                  else
                    ⟨200, "Video uploaded successfully", some videoURL,
                      [.createTemp, .putObject s3Key, .updateVideo videoURL,
                        .closeTemp, .removeTemp]⟩

/-- The public URL the handler derives for a stored key (source line:
`videoURL := fmt.Sprintf("https://%s.s3.%s.amazonaws.com/%s", ...)`). -/
def urlOf (i : UploadInput) (key : String) : String :=
  "https://" ++ i.s3Bucket ++ ".s3." ++ i.s3Region ++ ".amazonaws.com/" ++ key

/-- A canonical all-steps-succeed input.  The probe output is an empty
stream list, so the classifier yields "other" (a legitimate success path)
and concrete evaluations stay within kernel reduction. -/
def iSuccess : UploadInput where
  videoIDValid := true
  bearerToken := some "token"
  jwtUserID := some "user1"
  dbVideo := some ⟨"user1", none⟩
  parseFormOk := true
  filePart := some "video/mp4"
  outerContentType := "multipart/form-data; boundary=xyz"
  createTempOk := true
  copyOk := true
  probeOutput := some []
  seekOk := true
  randBytes := some (List.replicate 32 0)
  putObjectOk := true
  updateVideoOk := true
  s3Bucket := "tubely"
  s3Region := "us-east-1"

/-- The ratio the loop body computes for a stream: width over height, with
the two dimensions exchanged when the rotate tag is "90" or "270". -/
def streamRatio (s : FFStream) : ℚ :=
  ((if s.rotate = "90" ∨ s.rotate = "270" then s.height else s.width : Int) : ℚ) /
  ((if s.rotate = "90" ∨ s.rotate = "270" then s.width else s.height : Int) : ℚ)

/-- What one loop iteration contributes: `none` when the stream is skipped
(wrong codec type or nonpositive dimension) or its ratio matches no band,
otherwise the matched band label. -/
def streamBand (s : FFStream) : Option String :=
  if s.codecType ≠ "video" then none
  else if s.width ≤ 0 ∨ s.height ≤ 0 then none
  else bandLabel (streamRatio s)

/-- Dimension-filter predicate exactly as the spec sentence puts it: codec
type "video" and both dimensions positive. -/
def qualifies (s : FFStream) : Bool :=
  s.codecType = "video" && decide (0 < s.width) && decide (0 < s.height)

/-- The classification the spec sentence describes (claim semantics, not
the code): the FIRST stream passing the dimension filter alone decides; if
its ratio matches no band the result is "other", later streams are never
considered. -/
def specFirstStreamLabel (l : List FFStream) : String :=
  match l.find? qualifies with
  | some s => (bandLabel (streamRatio s)).getD "other"
  | none => "other"

/-- The classification the code actually implements, stated spec-style: the
first stream that both passes the filter AND matches a band decides; if no
stream does, the result is "other". -/
def specAmendedLabel (l : List FFStream) : String :=
  (l.findSome? streamBand).getD "other"

/-- The band label is a plain function of the computed ratio; "other" when
no band matches. -/
def labelOfRatio (ar : ℚ) : String :=
  (bandLabel ar).getD "other"

/-- The twelve failure kinds of the spec's error taxonomy, in handler
order. -/
inductive ErrorKind where
  | badIdentifier
  | missingCredential
  | invalidCredential
  | notFound
  | forbidden
  | malformedForm
  | missingFilePart
  | unsupportedMediaType
  | localIOFailure
  | probeFailure
  | remoteUploadFailure
  | recordUpdateFailure
deriving DecidableEq, Repr

/-- A canonical input exhibiting each failure kind: `iSuccess` with exactly
the corresponding external call failing (for `forbidden`, a record owned by
a different user; for `unsupportedMediaType`, a part declaring
"image/png"). -/
def inputForKind : ErrorKind → UploadInput
  | .badIdentifier => { iSuccess with videoIDValid := false }
  | .missingCredential => { iSuccess with bearerToken := none }
  | .invalidCredential => { iSuccess with jwtUserID := none }
  | .notFound => { iSuccess with dbVideo := none }
  | .forbidden => { iSuccess with dbVideo := some ⟨"user2", none⟩ }
  | .malformedForm => { iSuccess with parseFormOk := false }
  | .missingFilePart => { iSuccess with filePart := none }
  | .unsupportedMediaType => { iSuccess with filePart := some "image/png" }
  | .localIOFailure => { iSuccess with createTempOk := false }
  | .probeFailure => { iSuccess with probeOutput := none }
  | .remoteUploadFailure => { iSuccess with putObjectOk := false }
  | .recordUpdateFailure => { iSuccess with updateVideoOk := false }

/-- The HTTP status the handler responds with for each failure kind. -/
def statusForKind (k : ErrorKind) : Nat :=
  (handlerUploadVideo (inputForKind k)).status

/-! ### Helper lemmas -/

theorem hexEncodeList_length (bs : List Nat) :
    (hexEncodeList bs).length = 2 * bs.length := by
  induction bs with
  | nil => rfl
  | cons b bs ih => simp [hexEncodeList, ih]; ring

theorem hexDigit_mem_hextable (n : Nat) : hexDigit n ∈ hextable := by
  unfold hexDigit
  rcases Nat.lt_or_ge n hextable.length with h | h
  · exact List.getD_eq_getElem hextable '0' h ▸ List.getElem_mem h
  · rw [List.getD_eq_default hextable '0' h]; decide

theorem hexEncodeList_mem (bs : List Nat) :
    ∀ c ∈ hexEncodeList bs, c ∈ hextable := by
  induction bs with
  | nil => intro c hc; cases hc
  | cons b bs ih =>
    intro c hc
    rcases hc with _ | ⟨_, hc⟩
    · exact hexDigit_mem_hextable _
    · rcases hc with _ | ⟨_, hc⟩
      · exact hexDigit_mem_hextable _
      · exact ih c hc

theorem classifyStreams_cons (s : FFStream) (rest : List FFStream) :
    classifyStreams (s :: rest) =
      if s.codecType ≠ "video" then classifyStreams rest
      else if s.width ≤ 0 ∨ s.height ≤ 0 then classifyStreams rest
      else (bandLabel (streamRatio s)).getD (classifyStreams rest) := rfl

/-! ### C1 -/

/-- C1: the spec says the FIRST stream passing the dimension filter decides
the label, with "other" returned if its ratio matches no band, later
streams never considered.  The code disagrees: a qualifying stream whose
ratio matches no band is passed over and the loop continues.  Concrete
counterexample: a square 1×1 video stream followed by a 16×9 one — the
claim mandates "other", the code returns "16:9". -/
theorem classify_first_stream_counterexample :
    classifyStreams [⟨"video", 1, 1, ""⟩, ⟨"video", 16, 9, ""⟩] = "16:9" ∧
    specFirstStreamLabel [⟨"video", 1, 1, ""⟩, ⟨"video", 16, 9, ""⟩] = "other" ∧
    classifyStreams [⟨"video", 1, 1, ""⟩, ⟨"video", 16, 9, ""⟩] ≠
      specFirstStreamLabel [⟨"video", 1, 1, ""⟩, ⟨"video", 16, 9, ""⟩] := by
  have h1 : classifyStreams [⟨"video", 1, 1, ""⟩, ⟨"video", 16, 9, ""⟩] = "16:9" := by
    simp [classifyStreams, bandLabel]; norm_num
  have h2 : specFirstStreamLabel [⟨"video", 1, 1, ""⟩, ⟨"video", 16, 9, ""⟩] = "other" := by
    simp [specFirstStreamLabel, qualifies, streamRatio, bandLabel, List.find?]
    norm_num
  exact ⟨h1, h2, by rw [h1, h2]; decide⟩

/-- C1 (amended): the label is determined by the first stream that passes
the filter AND whose ratio matches a band; streams failing the filter are
skipped, and so are qualifying streams matching no band; if no stream
matches any band the function returns "other". -/
theorem classifyStreams_eq_first_matching (l : List FFStream) :
    classifyStreams l = specAmendedLabel l := by
  induction l with
  | nil => rfl
  | cons s rest ih =>
    rw [classifyStreams_cons]
    by_cases hc : s.codecType ≠ "video"
    · have hsb : streamBand s = none := by simp [streamBand, hc]
      simpa [specAmendedLabel, List.findSome?, hsb, hc] using ih
    · by_cases hd : s.width ≤ 0 ∨ s.height ≤ 0
      · have hsb : streamBand s = none := by simp [streamBand, hc, hd]
        simpa [specAmendedLabel, List.findSome?, hsb, hc, hd] using ih
      · rcases hb : bandLabel (streamRatio s) with _ | lab
        · have hsb : streamBand s = none := by simp [streamBand, hc, hd, hb]
          simpa [specAmendedLabel, List.findSome?, hsb, hc, hd, hb] using ih
        · have hsb : streamBand s = some lab := by simp [streamBand, hc, hd, hb]
          simp [specAmendedLabel, List.findSome?, hsb, hc, hd, hb]

/-! ### C4 -/

/-- C4: a 16×9 stream (ratio 1.777…) classifies as "16:9"; a 9×16 stream
(ratio 0.5625) as "9:16"; a square stream (ratio exactly 1.0) as "other";
and a stream with width 0 is skipped by the dimension filter, falling
through to "other" when no other stream qualifies. -/
theorem classify_concrete_ratios :
    classifyStreams [⟨"video", 16, 9, ""⟩] = "16:9" ∧
    classifyStreams [⟨"video", 9, 16, ""⟩] = "9:16" ∧
    classifyStreams [⟨"video", 100, 100, ""⟩] = "other" ∧
    classifyStreams [⟨"video", 0, 100, ""⟩] = "other" := by
  refine ⟨?_, ?_, ?_, ?_⟩ <;> simp [classifyStreams, bandLabel] <;> norm_num

/-! ### C5 -/

/-- C5: classification is a pure function of (width, height, rotation) —
in this embedding it literally is the function `classifyStreams` — and
classifying (w, h) under rotation "90" or "270" agrees with classifying
the transposed pair (h, w) under rotation "0" or "180". -/
theorem classify_rotation_transpose (w h : Int) (r1 r2 : String)
    (h1 : r1 = "90" ∨ r1 = "270") (h2 : r2 = "0" ∨ r2 = "180") :
    classifyStreams [⟨"video", w, h, r1⟩] = classifyStreams [⟨"video", h, w, r2⟩] := by
  have hr2 : ¬(r2 = "90" ∨ r2 = "270") := by
    rcases h2 with h2 | h2 <;> subst h2 <;> simp
  by_cases hw : w ≤ 0
  · simp [classifyStreams, hw]
  · by_cases hh : h ≤ 0
    · simp [classifyStreams, hh]
    · rcases h1 with h1 | h1 <;> subst h1 <;>
        simp [classifyStreams, hw, hh, hr2]

/-- Witness for C5 at (16, 9): rotation "90" on 16×9 agrees with rotation
"0" on 9×16. -/
theorem classify_rotation_transpose_witness :
    classifyStreams [⟨"video", 16, 9, "90"⟩] = classifyStreams [⟨"video", 9, 16, "0"⟩] :=
  classify_rotation_transpose 16 9 "90" "0" (Or.inl rfl) (Or.inl rfl)

/-! ### C9 -/

/-- C9: the dimensions are swapped exactly when the rotate tag is the
string "90" or "270"; every other tag — "-90", "180", the absent/empty
tag — leaves them unswapped. -/
theorem classify_rotate_swap_cases (w h : Int) (rot : String)
    (hw : 0 < w) (hh : 0 < h) :
    ((rot = "90" ∨ rot = "270") →
      classifyStreams [⟨"video", w, h, rot⟩] = labelOfRatio ((h : ℚ) / (w : ℚ))) ∧
    (rot ≠ "90" → rot ≠ "270" →
      classifyStreams [⟨"video", w, h, rot⟩] = labelOfRatio ((w : ℚ) / (h : ℚ))) := by
  have hw' : ¬ w ≤ 0 := not_le.mpr hw
  have hh' : ¬ h ≤ 0 := not_le.mpr hh
  constructor
  · intro hr
    rcases hr with hr | hr <;> subst hr <;>
      simp [classifyStreams, labelOfRatio, hw', hh']
  · intro h1 h2
    simp [classifyStreams, labelOfRatio, hw', hh', h1, h2]

/-- Witness for C9 at 16×9: tag "90" swaps (ratio 9/16), tag "-90" does
not (ratio 16/9). -/
theorem classify_rotate_swap_cases_witness :
    classifyStreams [⟨"video", 16, 9, "90"⟩] = labelOfRatio ((9 : ℚ) / (16 : ℚ)) ∧
    classifyStreams [⟨"video", 16, 9, "-90"⟩] = labelOfRatio ((16 : ℚ) / (9 : ℚ)) :=
  ⟨(classify_rotate_swap_cases 16 9 "90" (by decide) (by decide)).1 (Or.inl rfl),
   (classify_rotate_swap_cases 16 9 "-90" (by decide) (by decide)).2
     (by decide) (by decide)⟩

/-! ### Handler trace shapes -/

/-- Every execution produces one of three effect traces: nothing (failure
before the temp file), create/close/remove only (failure after the temp
file but before a successful put), or the full
create/put/update/close/remove success shape, in which the updated URL is
exactly the derived public URL of the stored key. -/
theorem handler_trace_cases (i : UploadInput) :
    (handlerUploadVideo i).trace = [] ∨
    (handlerUploadVideo i).trace =
      [Effect.createTemp, Effect.closeTemp, Effect.removeTemp] ∨
    ∃ k, (handlerUploadVideo i).trace =
      [Effect.createTemp, Effect.putObject k, Effect.updateVideo (urlOf i k),
       Effect.closeTemp, Effect.removeTemp] := by
  generalize hR : handlerUploadVideo i = r
  unfold handlerUploadVideo at hR
  repeat' split at hR
  all_goals subst hR
  all_goals first
    | exact Or.inl rfl
    | exact Or.inr (Or.inl rfl)
    | exact Or.inr (Or.inr ⟨_, rfl⟩)

/-! ### C2 -/

/-- C2: the record's URL is written if and only if the store durably
accepted the object: an `UpdateVideo` call appears in the trace exactly
when a successful `PutObject` does; and whenever `UpdateVideo` is called,
the trace is the full success shape — put strictly before update, the
updated URL being exactly the public URL derived from the stored key.
Every failure before the put therefore leaves both the record and the
remote store untouched. -/
theorem uploadVideo_update_iff_put (i : UploadInput) :
    ((∃ u, Effect.updateVideo u ∈ (handlerUploadVideo i).trace) ↔
      (∃ k, Effect.putObject k ∈ (handlerUploadVideo i).trace)) ∧
    (∀ u, Effect.updateVideo u ∈ (handlerUploadVideo i).trace →
      ∃ k, u = urlOf i k ∧
        (handlerUploadVideo i).trace =
          [Effect.createTemp, Effect.putObject k, Effect.updateVideo (urlOf i k),
           Effect.closeTemp, Effect.removeTemp]) := by
  rcases handler_trace_cases i with h | h | ⟨k, h⟩ <;> rw [h]
  · simp
  · simp
  · constructor
    · exact ⟨fun _ => ⟨k, by simp⟩, fun _ => ⟨urlOf i k, by simp⟩⟩
    · intro u hu
      simp only [List.mem_cons, List.not_mem_nil, or_false] at hu
      rcases hu with h1 | h1 | h1 | h1 | h1 <;> cases h1
      exact ⟨k, rfl, rfl⟩

/-- Witness for C2 at the canonical successful input. -/
theorem uploadVideo_update_iff_put_witness :
    ∃ k, ("https://tubely.s3.us-east-1.amazonaws.com/videos/other/" ++
        String.mk (List.replicate 64 '0') ++ ".mp4") = urlOf iSuccess k ∧
      (handlerUploadVideo iSuccess).trace =
        [Effect.createTemp, Effect.putObject k,
         Effect.updateVideo (urlOf iSuccess k),
         Effect.closeTemp, Effect.removeTemp] :=
  (uploadVideo_update_iff_put iSuccess).2
    ("https://tubely.s3.us-east-1.amazonaws.com/videos/other/" ++
      String.mk (List.replicate 64 '0') ++ ".mp4") (by decide)

/-! ### C8 -/

/-- C8: on every exit path that created the staged temporary file, the
trace ends with closing and removing it — no temporary file survives the
handler. -/
theorem uploadVideo_temp_cleanup (i : UploadInput)
    (h : Effect.createTemp ∈ (handlerUploadVideo i).trace) :
    ∃ pre, (handlerUploadVideo i).trace =
      pre ++ [Effect.closeTemp, Effect.removeTemp] := by
  rcases handler_trace_cases i with ht | ht | ⟨k, ht⟩ <;> rw [ht]
  · rw [ht] at h; cases h
  · exact ⟨[Effect.createTemp], rfl⟩
  · exact ⟨[Effect.createTemp, Effect.putObject k,
      Effect.updateVideo (urlOf i k)], rfl⟩

/-- Witness for C8 at the canonical successful input. -/
theorem uploadVideo_temp_cleanup_witness :
    ∃ pre, (handlerUploadVideo iSuccess).trace =
      pre ++ [Effect.closeTemp, Effect.removeTemp] :=
  uploadVideo_temp_cleanup iSuccess (by decide)

/-! ### C3 -/

/-- C3: every successful upload responds with
`https://<bucket>.s3.<region>.amazonaws.com/videos/<p>/<t>.mp4`, where `t`
is the hex encoding of the random bytes (64 lowercase hex characters when,
as in the code, there are 32 bytes) and `p` is "landscape" for classifier
labels "16:9"/"4:3", "portrait" for "9:16"/"3:4", and "other" for any
other label. -/
theorem uploadVideo_success_url_shape (i : UploadInput) :
    (handlerUploadVideo i).status = 200 →
    ∃ streams randomBytes,
      i.probeOutput = some streams ∧
      i.randBytes = some randomBytes ∧
      (handlerUploadVideo i).videoURL =
        some (urlOf i ("videos/" ++ classificationOfLabel (classifyStreams streams) ++
          "/" ++ hexEncodeToString randomBytes ++ ".mp4")) ∧
      (randomBytes.length = 32 → (hexEncodeToString randomBytes).length = 64) ∧
      (∀ c ∈ (hexEncodeToString randomBytes).data, c ∈ hextable) ∧
      (∀ label,
        ((label = "16:9" ∨ label = "4:3") → classificationOfLabel label = "landscape") ∧
        ((label = "9:16" ∨ label = "3:4") → classificationOfLabel label = "portrait") ∧
        (label ≠ "16:9" → label ≠ "4:3" → label ≠ "9:16" → label ≠ "3:4" →
          classificationOfLabel label = "other")) := by
  generalize hR : handlerUploadVideo i = r
  unfold handlerUploadVideo at hR
  repeat' split at hR
  all_goals subst hR
  all_goals intro h200
  all_goals dsimp only at h200
  all_goals first
    | exact absurd h200 (by decide)
    | skip
  rename_i x1 a hprobe hseek x2 rb hrand hput hupd
  simp only [getVideoAspectRatio] at hprobe
  rcases Option.map_eq_some'.mp hprobe with ⟨streams, hpo, hcls⟩
  subst hcls
  refine ⟨streams, rb, hpo, hrand, rfl, ?_, ?_, ?_⟩
  · intro h32
    simp [hexEncodeToString, String.length, hexEncodeList_length, h32]
  · exact hexEncodeList_mem rb
  · intro label
    refine ⟨?_, ?_, ?_⟩
    · intro hl; rcases hl with hl | hl <;> simp [classificationOfLabel, hl]
    · intro hl; rcases hl with hl | hl <;> simp [classificationOfLabel, hl]
    · intro h1 h2 h3 h4; simp [classificationOfLabel, h1, h2, h3, h4]

/-- Witness for C3 at the canonical successful input. -/
theorem uploadVideo_success_url_shape_witness :
    ∃ streams randomBytes,
      iSuccess.probeOutput = some streams ∧
      iSuccess.randBytes = some randomBytes ∧
      (handlerUploadVideo iSuccess).videoURL =
        some (urlOf iSuccess ("videos/" ++ classificationOfLabel (classifyStreams streams) ++
          "/" ++ hexEncodeToString randomBytes ++ ".mp4")) ∧
      (randomBytes.length = 32 → (hexEncodeToString randomBytes).length = 64) ∧
      (∀ c ∈ (hexEncodeToString randomBytes).data, c ∈ hextable) ∧
      (∀ label,
        ((label = "16:9" ∨ label = "4:3") → classificationOfLabel label = "landscape") ∧
        ((label = "9:16" ∨ label = "3:4") → classificationOfLabel label = "portrait") ∧
        (label ≠ "16:9" → label ≠ "4:3" → label ≠ "9:16" → label ≠ "3:4" →
          classificationOfLabel label = "other")) :=
  uploadVideo_success_url_shape iSuccess (by decide)

/-! ### C6 -/

/-- C6: the handler validates the file part's own Content-Type header and
never consults the outer request's (first conjunct: the result is invariant
under that header); whenever the part's declared type does not parse to
exactly "video/mp4" the whole effect trace is empty — no temp file, no
upload, no record update (second conjunct); when the gate is reached it
responds 400 for any non-"video/mp4" type (third conjunct); and exactly
the media type "video/mp4" passes the gate, after which the temp file is
created (fourth conjunct). -/
theorem uploadVideo_content_type_gate :
    (∀ i ct, handlerUploadVideo { i with outerContentType := ct } = handlerUploadVideo i) ∧
    (∀ i pct, i.filePart = some pct → parseMediaType pct ≠ some "video/mp4" →
      (handlerUploadVideo i).trace = []) ∧
    (∀ i tok uid v pct, i.videoIDValid = true → i.bearerToken = some tok →
      i.jwtUserID = some uid → i.dbVideo = some v → v.userID = uid →
      i.parseFormOk = true → i.filePart = some pct →
      parseMediaType pct ≠ some "video/mp4" →
      (handlerUploadVideo i).status = 400) ∧
    (∀ i tok uid v pct, i.videoIDValid = true → i.bearerToken = some tok →
      i.jwtUserID = some uid → i.dbVideo = some v → v.userID = uid →
      i.parseFormOk = true → i.filePart = some pct →
      parseMediaType pct = some "video/mp4" → i.createTempOk = true →
      Effect.createTemp ∈ (handlerUploadVideo i).trace) := by
  refine ⟨?_, ?_, ?_, ?_⟩
  · intro i ct; cases i; rfl
  · intro i pct hfp hpm
    generalize hR : handlerUploadVideo i = r
    unfold handlerUploadVideo at hR
    repeat' split at hR
    all_goals subst hR
    all_goals simp_all
  · intro i tok uid v pct h1 h2 h3 h4 h5 h6 h7 h8
    generalize hR : handlerUploadVideo i = r
    unfold handlerUploadVideo at hR
    simp only [h1, h2, h3, h4, h5, h6, h7] at hR
    rcases hpm : parseMediaType pct with _ | mt
    · rw [hpm] at hR; simp at hR; subst hR; rfl
    · have hmt : mt ≠ "video/mp4" := by
        intro hh; exact h8 (hh ▸ hpm)
      rw [hpm] at hR; simp [hmt] at hR; subst hR; rfl
  · intro i tok uid v pct h1 h2 h3 h4 h5 h6 h7 h8 h9
    generalize hR : handlerUploadVideo i = r
    unfold handlerUploadVideo at hR
    simp only [h1, h2, h3, h4, h5, h6, h7, h8, h9] at hR
    repeat' split at hR
    all_goals subst hR
    all_goals simp_all

/-- Witness for C6: a part declaring "image/png" is rejected with 400 and
an empty trace. -/
theorem uploadVideo_content_type_gate_witness :
    (handlerUploadVideo (inputForKind ErrorKind.unsupportedMediaType)).status = 400 ∧
    (handlerUploadVideo (inputForKind ErrorKind.unsupportedMediaType)).trace = [] :=
  ⟨uploadVideo_content_type_gate.2.2.1 (inputForKind ErrorKind.unsupportedMediaType)
      "token" "user1" ⟨"user1", none⟩ "image/png"
      rfl rfl rfl rfl rfl rfl rfl (by decide),
   uploadVideo_content_type_gate.2.1 (inputForKind ErrorKind.unsupportedMediaType)
      "image/png" rfl (by decide)⟩

/-! ### C7 -/

/-- C7 counterexample: the claim says each failure kind maps to a distinct
HTTP status, but a missing credential and an invalid credential are two
distinct kinds that both map to 401 (lines 38-48 of the handler). -/
theorem statusForKind_not_injective :
    ErrorKind.missingCredential ≠ ErrorKind.invalidCredential ∧
    statusForKind ErrorKind.missingCredential =
      statusForKind ErrorKind.invalidCredential := by
  constructor
  · decide
  · decide

/-- C7 (amended): the failure kinds map onto the five statuses 400, 401,
403, 404, 500 as the handler assigns them — not pairwise distinct (both
credential failures share 401; form, I/O, probe, upload and update
failures share 500; identifier, file-part and media-type failures share
400) — and in particular a non-owner caller receives 403, distinct from
the 404 of a missing record. -/
theorem statusForKind_table :
    statusForKind ErrorKind.badIdentifier = 400 ∧
    statusForKind ErrorKind.missingCredential = 401 ∧
    statusForKind ErrorKind.invalidCredential = 401 ∧
    statusForKind ErrorKind.notFound = 404 ∧
    statusForKind ErrorKind.forbidden = 403 ∧
    statusForKind ErrorKind.malformedForm = 500 ∧
    statusForKind ErrorKind.missingFilePart = 400 ∧
    statusForKind ErrorKind.unsupportedMediaType = 400 ∧
    statusForKind ErrorKind.localIOFailure = 500 ∧
    statusForKind ErrorKind.probeFailure = 500 ∧
    statusForKind ErrorKind.remoteUploadFailure = 500 ∧
    statusForKind ErrorKind.recordUpdateFailure = 500 ∧
    statusForKind ErrorKind.forbidden ≠ statusForKind ErrorKind.notFound := by
  decide

/-! ### C10 -/

/-- C10: a part Content-Type carrying parameters after the media type is
accepted: parsing strips the parameters and lowercases the type, so
"video/mp4; codecs=avc1" (and "Video/MP4; codecs=avc1") compare equal to
"video/mp4" and the upload is not rejected as an unsupported media type —
the canonical input with that header succeeds end to end. -/
theorem parseMediaType_params_accepted :
    parseMediaType "video/mp4; codecs=avc1" = some "video/mp4" ∧
    parseMediaType "Video/MP4; codecs=avc1" = some "video/mp4" ∧
    (handlerUploadVideo
      { iSuccess with filePart := some "video/mp4; codecs=avc1" }).status = 200 := by
  refine ⟨by decide, by decide, by decide⟩
